import Mathlib

/-!
# sealos: AWS network lifecycle (`pkg/infra/aws/aws_vpc.go`)

A shallow embedding of the lifecycle operations of `AwsProvider`:
`CreateVPC`, `DeleteVPC`, `CreateSecurityGroup`, `DeleteSecurityGroup`,
`GetAvailableZoneID`, `BindEipForMaster0`, `ReleaseEipAddress`.

Modelling conventions.

* The provider object `a` is split into its read-only part (`InfraSpec`, the
  infra name) and its mutable part (`InfraStatus`).  Every operation takes the
  status before the call and returns an `Effect`: the Go return value, the
  status after the call, and the list of cloud-client calls issued, in order.
* The cloud client (`a.EC2Helper` and `a.EC2Helper.Svc`) is an external
  collaborator.  It is a record of response functions, one per operation;
  every request that reaches it is appended to the call list.
* SDK responses are pointer-typed in Go; the embedding takes every field that
  the code dereferences as populated.
* Logging is not modelled.
-/

namespace Sealos

/-! ## Data model -/

/-- Go type `v1beta1.Arch` (a string type, `contants.go`). -/
abbrev Arch := String

def AMD64 : Arch := "amd64"
def ARM64 : Arch := "arm64"
def X86_64 : Arch := "x86_64"

/-- Go type `v1beta1.Protocol` (a string type, `contants.go`). -/
abbrev Protocol := String

def ProtocolTCP : Protocol := "tcp"
def ProtocolUDP : Protocol := "udp"

/-- An exported port of the spec.  The Go declaration of
`v1beta1.InfraExportPort` is not part of the sources at hand; the operations
only pass the value through, so its fields are carried as data. -/
structure InfraExportPort where
  Protocol : Protocol
  CidrIP : String
  PortRange : String
deriving DecidableEq, Repr

/-- Typed key of a resource field (`VpcID`, `SubnetID`, ...). -/
inductive ResourceName where
  | EipID
  | VpcID
  | SubnetID
  | SubnetZoneID
  | SecurityGroupID
  | EgressGatewayID
deriving DecidableEq, Repr

/-- The user declaration (`a.Infra.Spec`): candidate zones, export ports and
the optional identifiers of resources to reuse. -/
structure InfraSpec where
  ZoneIDs : List String
  ExportPorts : List InfraExportPort
  VpcID : String
  SubnetID : String
  SecurityGroupID : String
deriving DecidableEq, Repr

/-- One entry of `a.Infra.Status.Hosts`. -/
structure HostStatus where
  Ready : Bool
  Roles : List String
  Arch : Arch
deriving DecidableEq, Repr

/-- Go type `v1beta1.InfraHost`, restricted to what `BindEipForMaster0` reads. -/
structure InfraHost where
  Roles : List String
  Arch : Arch
deriving DecidableEq, Repr

/-- The part `a.Infra.Status.Cluster` of the status. -/
structure ClusterStatus where
  ZoneID : String
  EIP : String
  Master0ID : String
  Master0InternalIP : String
  EipID : String
  VpcID : String
  SubnetID : String
  SubnetZoneID : String
  SecurityGroupID : String
  EgressGatewayID : String
deriving DecidableEq, Repr

/-- The mutable record (`a.Infra.Status`). -/
structure InfraStatus where
  Cluster : ClusterStatus
  Hosts : List HostStatus
deriving DecidableEq, Repr

/-! ## Resource field accessor -/

/-- Modelled from the spec: the method `ResourceName.ClusterValue` is not part
of the sources at hand.  "`ClusterValue(spec) -> string` returns the
user-declared value or empty"; the spec declares identifiers for VPC, subnet
and security group only. -/
def ResourceName.ClusterValue (r : ResourceName) (spec : InfraSpec) : String :=
  match r with
  | .VpcID => spec.VpcID
  | .SubnetID => spec.SubnetID
  | .SecurityGroupID => spec.SecurityGroupID
  | .EipID => ""
  | .SubnetZoneID => ""
  | .EgressGatewayID => ""

/-- Modelled from the spec: the method `ResourceName.Value` is not part of the
sources at hand.  "`Value(status) -> string` returns the currently recorded
value or empty". -/
def ResourceName.Value (r : ResourceName) (status : InfraStatus) : String :=
  match r with
  | .EipID => status.Cluster.EipID
  | .VpcID => status.Cluster.VpcID
  | .SubnetID => status.Cluster.SubnetID
  | .SubnetZoneID => status.Cluster.SubnetZoneID
  | .SecurityGroupID => status.Cluster.SecurityGroupID
  | .EgressGatewayID => status.Cluster.EgressGatewayID

/-- Modelled from the spec: the method `ResourceName.SetValue` is not part of
the sources at hand.  "`SetValue(status, v)` writes it"; it is the only writer
of the field and touches no other field. -/
def ResourceName.SetValue (r : ResourceName) (status : InfraStatus) (val : String) :
    InfraStatus :=
  match r with
  | .EipID => { status with Cluster := { status.Cluster with EipID := val } }
  | .VpcID => { status with Cluster := { status.Cluster with VpcID := val } }
  | .SubnetID => { status with Cluster := { status.Cluster with SubnetID := val } }
  | .SubnetZoneID => { status with Cluster := { status.Cluster with SubnetZoneID := val } }
  | .SecurityGroupID =>
      { status with Cluster := { status.Cluster with SecurityGroupID := val } }
  | .EgressGatewayID =>
      { status with Cluster := { status.Cluster with EgressGatewayID := val } }

/-! ## Errors, requests and the cloud client -/

/-- A Go `error` value that is not `nil`. -/
inductive Err where
  /-- an error value handed back by the cloud client -/
  | cloud (code : String)
  /-- `errors.New(msg)` and `fmt.Errorf(msg)` with a constant message -/
  | message (msg : String)
  /-- `fmt.Errorf("authorize securitygroup port: %v failed", ports)` -/
  | authorizeFailed (ports : List InfraExportPort)
deriving DecidableEq, Repr

/-- What a Go function of result type `error` does: return `nil`, return an
error, or stop in a run-time panic (index out of range). -/
inductive Outcome where
  | ok
  | err (e : Err)
  | panic
deriving DecidableEq, Repr

/-- The tag filter built by `CreateDescribeInstancesTag` from the map with the
keys `Product`, `Role` and `Arch`. -/
structure InstanceTags where
  Product : String
  Role : String
  Arch : String
deriving DecidableEq, Repr

/-- A request that reaches the cloud client. -/
inductive Call where
  | CreateVpc (cidrBlock tagKey tagValue : String)
  | GetOrCreateSubnetIDByVpcID (vpcID : String)
  | BindEgressGatewayToVpc (vpcID : String)
  | DeleteVpc (vpcID : String)
  | CreateSecurityGroup (description vpcID groupName : String)
  | AuthorizeSecurityGroupIngress (groupID : String) (ports : List InfraExportPort)
  | DeleteSecurityGroup (groupID : String)
  | DescribeAvailabilityZones (regionName : String)
  | GetInstanceInfos (filters : InstanceTags)
  | AllocateAddress
  | AssociateAddress (instanceID allocationID : String)
  | DisassociateAddress (associationID : String)
  | ReleaseAddress (allocationID : String)
deriving DecidableEq, Repr

/-- The fields of `ec2.Subnet` that `CreateVPC` reads. -/
structure Subnet where
  SubnetId : String
  AvailabilityZoneId : String
deriving DecidableEq, Repr

/-- The field of `ec2.AvailabilityZone` that `GetAvailableZoneID` reads. -/
structure AvailabilityZone where
  ZoneId : String
deriving DecidableEq, Repr

/-- The fields of `ec2.Instance` that `BindEipForMaster0` reads. -/
structure Instance where
  StateCode : Int
  InstanceId : String
  PrivateIpAddress : String
deriving DecidableEq, Repr

/-- The fields of `ec2.AllocateAddressOutput` that `allocateEipAddress` reads. -/
structure AllocateAddressOutput where
  PublicIp : String
  AllocationId : String
deriving DecidableEq, Repr

/-- The cloud client: one response function per operation that the lifecycle
code calls on `a.EC2Helper`, on `a.EC2Helper.Svc`, or through
`a.AuthorizeSecurityGroupIngress`. -/
structure EC2Helper where
  CreateVpc : String → String → String → Except Err String
  GetOrCreateSubnetIDByVpcID : String → Except Err Subnet
  BindEgressGatewayToVpc : String → Except Err String
  DeleteVpc : String → Except Err Unit
  CreateSecurityGroup : String → String → String → Except Err String
  AuthorizeSecurityGroupIngress : String → List InfraExportPort → Bool
  DeleteSecurityGroup : String → Except Err Unit
  DescribeAvailabilityZones : String → Except Err (List AvailabilityZone)
  GetInstanceInfos : InstanceTags → Except Err (List Instance)
  AllocateAddress : Except Err AllocateAddressOutput
  AssociateAddress : String → String → Except Err Unit
  DisassociateAddress : String → Except Err Unit
  ReleaseAddress : String → Except Err Unit

/-- The package-level defaults (`DefaultCIDR`, `DefaultTagKey`,
`DefaultTagValue`, `DefaultRegion`); their declarations are not part of the
sources at hand, so they are taken as parameters. -/
structure Defaults where
  DefaultCIDR : String
  DefaultTagKey : String
  DefaultTagValue : String
  DefaultRegion : String
deriving DecidableEq, Repr

/-- The read-only part of the provider: `a.Infra.Name`, `a.Infra.Spec`, the
package defaults, the cloud client, and the two sources of randomness
(`rand.Rand` and `RandSecurityGroupName`, taken as parameters). -/
structure AwsProvider where
  Name : String
  Spec : InfraSpec
  defaults : Defaults
  EC2 : EC2Helper
  Rand : Int → Int
  RandSecurityGroupName : String

/-- The result of running one operation: the Go return value, the status
afterwards, and the cloud-client calls issued, in order. -/
structure Effect where
  result : Outcome
  status : InfraStatus
  calls : List Call
deriving DecidableEq, Repr

/-! ## Helpers of package `v1beta1` -/

/-- Modelled from the spec: the constant `v1beta1.Master` is not part of the
sources at hand (`contants.go` has `MASTER = "master"`); the spec speaks of the
role "master". -/
def Master : String := "master"

/-- Modelled from the spec: the function `v1beta1.In` is not part of the
sources at hand; a host "with role master" is one whose role list contains the
key. -/
def In (key : String) (slice : List String) : Bool :=
  slice.any (fun s => key == s)

/-- Modelled from the spec: the method `ToHost` is not part of the sources at
hand; the located host keeps its roles and its architecture. -/
def HostStatus.ToHost (h : HostStatus) : InfraHost :=
  { Roles := h.Roles, Arch := h.Arch }

/-- Go `strings.Join(elems, sep)`. -/
def stringsJoin (elems : List String) (sep : String) : String :=
  sep.intercalate elems

/-- Go slice indexing `xs[i]` with an `int` index: `none` stands for the
"index out of range" panic. -/
def sliceIndex {α : Type} (xs : List α) (i : Int) : Option α :=
  if i < 0 then none else xs.get? i.toNat

/-! ## Lifecycle operations -/

/-- Go `func (a *AwsProvider) CreateVPC() error`. -/
def CreateVPC (a : AwsProvider) (status : InfraStatus) : Effect :=
  let vpcID := ResourceName.VpcID.ClusterValue a.Spec
  if vpcID ≠ "" then
    { result := .ok, status := ResourceName.VpcID.SetValue status vpcID, calls := [] }
  else
    let c1 := Call.CreateVpc a.defaults.DefaultCIDR a.defaults.DefaultTagKey
      a.defaults.DefaultTagValue
    match a.EC2.CreateVpc a.defaults.DefaultCIDR a.defaults.DefaultTagKey
        a.defaults.DefaultTagValue with
    | .error e => { result := .err e, status := status, calls := [c1] }
    | .ok vpcId =>
      let s1 := ResourceName.VpcID.SetValue status vpcId
      let c2 := Call.GetOrCreateSubnetIDByVpcID vpcId
      match a.EC2.GetOrCreateSubnetIDByVpcID vpcId with
      | .error e => { result := .err e, status := s1, calls := [c1, c2] }
      | .ok subnet =>
        let s2 := ResourceName.SubnetID.SetValue s1 subnet.SubnetId
        let s3 := ResourceName.SubnetZoneID.SetValue s2 subnet.AvailabilityZoneId
        let c3 := Call.BindEgressGatewayToVpc vpcId
        match a.EC2.BindEgressGatewayToVpc vpcId with
        | .error e => { result := .err e, status := s3, calls := [c1, c2, c3] }
        | .ok egressGatewayID =>
          { result := .ok,
            status := ResourceName.EgressGatewayID.SetValue s3 egressGatewayID,
            calls := [c1, c2, c3] }

/-- Go `func (a *AwsProvider) DeleteVPC() error`. -/
def DeleteVPC (a : AwsProvider) (status : InfraStatus) : Effect :=
  if ResourceName.VpcID.ClusterValue a.Spec ≠ "" ∧ ResourceName.VpcID.Value status ≠ "" then
    { result := .ok, status := status, calls := [] }
  else
    let vpcId := ResourceName.VpcID.Value status
    match a.EC2.DeleteVpc vpcId with
    | .error e => { result := .err e, status := status, calls := [Call.DeleteVpc vpcId] }
    | .ok _ => { result := .ok, status := status, calls := [Call.DeleteVpc vpcId] }

/-- Go `func (a *AwsProvider) CreateSecurityGroup() error`. -/
def CreateSecurityGroup (a : AwsProvider) (status : InfraStatus) : Effect :=
  let securityGroupID := ResourceName.SecurityGroupID.ClusterValue a.Spec
  if securityGroupID ≠ "" then
    { result := .ok, status := ResourceName.SecurityGroupID.SetValue status securityGroupID,
      calls := [] }
  else
    let vpcID := ResourceName.VpcID.Value status
    let groupName := "sealos" ++ "-" ++ a.RandSecurityGroupName
    let c1 := Call.CreateSecurityGroup "sealos security group" vpcID groupName
    match a.EC2.CreateSecurityGroup "sealos security group" vpcID groupName with
    | .error e => { result := .err e, status := status, calls := [c1] }
    | .ok groupId =>
      let c2 := Call.AuthorizeSecurityGroupIngress groupId a.Spec.ExportPorts
      let ingress := a.EC2.AuthorizeSecurityGroupIngress groupId a.Spec.ExportPorts
      if !ingress then
        { result := .err (.authorizeFailed a.Spec.ExportPorts), status := status,
          calls := [c1, c2] }
      else
        { result := .ok, status := ResourceName.SecurityGroupID.SetValue status groupId,
          calls := [c1, c2] }

/-- Go `func (a *AwsProvider) DeleteSecurityGroup() error`. -/
def DeleteSecurityGroup (a : AwsProvider) (status : InfraStatus) : Effect :=
  if ResourceName.SecurityGroupID.ClusterValue a.Spec ≠ "" ∧
      ResourceName.SecurityGroupID.Value status ≠ "" then
    { result := .ok, status := status, calls := [] }
  else
    let groupId := ResourceName.SecurityGroupID.Value status
    match a.EC2.DeleteSecurityGroup groupId with
    | .error e =>
      { result := .err e, status := status, calls := [Call.DeleteSecurityGroup groupId] }
    | .ok _ => { result := .ok, status := status, calls := [Call.DeleteSecurityGroup groupId] }

/-- The assignment `a.Infra.Status.Cluster.ZoneID = v`. -/
def setZoneID (status : InfraStatus) (v : String) : InfraStatus :=
  { status with Cluster := { status.Cluster with ZoneID := v } }

/-- Go `func (a *AwsProvider) GetAvailableZoneID() error`. -/
def GetAvailableZoneID (a : AwsProvider) (status : InfraStatus) : Effect :=
  if status.Cluster.ZoneID ≠ "" then
    { result := .ok, status := status, calls := [] }
  else if a.Spec.ZoneIDs.length ≠ 0 then
    match sliceIndex a.Spec.ZoneIDs (a.Rand a.Spec.ZoneIDs.length) with
    | none => { result := .panic, status := status, calls := [] }
    | some z => { result := .ok, status := setZoneID status z, calls := [] }
  else
    let c1 := Call.DescribeAvailabilityZones a.defaults.DefaultRegion
    match a.EC2.DescribeAvailabilityZones a.defaults.DefaultRegion with
    | .error e => { result := .err e, status := status, calls := [c1] }
    | .ok zones =>
      if zones.length = 0 then
        { result := .err (.message "not available ZoneID "), status := status, calls := [c1] }
      else
        match sliceIndex zones (a.Rand zones.length) with
        | none => { result := .panic, status := status, calls := [c1] }
        | some zone => { result := .ok, status := setZoneID status zone.ZoneId, calls := [c1] }

/-- The first loop of `BindEipForMaster0`: the first host of the status with
the role master that is ready, converted by `ToHost`; `none` is Go `nil`. -/
def findReadyMaster (hosts : List HostStatus) : Option InfraHost :=
  (hosts.find? (fun h => In Master h.Roles && h.Ready)).map HostStatus.ToHost

/-- The second loop of `BindEipForMaster0`: the first instance whose state
code is 16; `none` is Go `nil`. -/
def findRunning (infos : List Instance) : Option Instance :=
  infos.find? (fun i => i.StateCode == 16)

/-- The four assignments that end `BindEipForMaster0`. -/
def recordMaster0 (status : InfraStatus) (eIP eIPID : String) (master0 : Instance) :
    InfraStatus :=
  let s1 : InfraStatus := { status with Cluster := { status.Cluster with EIP := eIP } }
  let s2 := ResourceName.EipID.SetValue s1 eIPID
  let s3 : InfraStatus :=
    { s2 with Cluster := { s2.Cluster with Master0ID := master0.InstanceId } }
  { s3 with Cluster := { s3.Cluster with Master0InternalIP := master0.PrivateIpAddress } }

/-- Go `func (a *AwsProvider) BindEipForMaster0() error`, with
`allocateEipAddress` and `associateEipAddress` unfolded. -/
def BindEipForMaster0 (a : AwsProvider) (status : InfraStatus) : Effect :=
  match findReadyMaster status.Hosts with
  | none =>
    { result := .err (.message "bind eip for master error: ready master host not fount"),
      status := status, calls := [] }
  | some host =>
    let input : InstanceTags :=
      { Product := a.Name, Role := stringsJoin host.Roles ",", Arch := host.Arch }
    let c1 := Call.GetInstanceInfos input
    match a.EC2.GetInstanceInfos input with
    | .error e => { result := .err e, status := status, calls := [c1] }
    | .ok infos =>
      match findRunning infos with
      | none =>
        { result := .err (.message "not found running instance"), status := status,
          calls := [c1] }
      | some master0 =>
        match a.EC2.AllocateAddress with
        | .error e => { result := .err e, status := status, calls := [c1, .AllocateAddress] }
        | .ok resp =>
          let eIP := resp.PublicIp
          let eIPID := resp.AllocationId
          let c3 := Call.AssociateAddress master0.InstanceId eIPID
          match a.EC2.AssociateAddress master0.InstanceId eIPID with
          | .error e =>
            { result := .err e, status := status, calls := [c1, .AllocateAddress, c3] }
          | .ok _ =>
            { result := .ok, status := recordMaster0 status eIP eIPID master0,
              calls := [c1, .AllocateAddress, c3] }

/-- Go `func (a *AwsProvider) ReleaseEipAddress() error`, with
`unAssociateEipAddress` unfolded. -/
def ReleaseEipAddress (a : AwsProvider) (status : InfraStatus) : Effect :=
  let c1 := Call.DisassociateAddress (ResourceName.EipID.Value status)
  match a.EC2.DisassociateAddress (ResourceName.EipID.Value status) with
  | .error e => { result := .err e, status := status, calls := [c1] }
  | .ok _ =>
    let c2 := Call.ReleaseAddress (ResourceName.EipID.Value status)
    match a.EC2.ReleaseAddress (ResourceName.EipID.Value status) with
    | .error e => { result := .err e, status := status, calls := [c1, c2] }
    | .ok _ => { result := .ok, status := status, calls := [c1, c2] }

/-! ## Reading a client response as a return value -/

/-- The return value of an operation that ends with
`_, err := call(...); if err != nil { return err }; return nil`. -/
def Outcome.ofExcept {α : Type} : Except Err α → Outcome
  | .error e => .err e
  | .ok _ => .ok

/-! ## Concrete inputs -/

/-- A status in which nothing is recorded. -/
def emptyStatus : InfraStatus :=
  { Cluster :=
      { ZoneID := "", EIP := "", Master0ID := "", Master0InternalIP := "", EipID := "",
        VpcID := "", SubnetID := "", SubnetZoneID := "", SecurityGroupID := "",
        EgressGatewayID := "" },
    Hosts := [] }

/-- A spec that declares nothing. -/
def emptySpec : InfraSpec :=
  { ZoneIDs := [], ExportPorts := [], VpcID := "", SubnetID := "", SecurityGroupID := "" }

/-- A spec that declares a VPC and a security group to reuse. -/
def adoptSpec : InfraSpec :=
  { emptySpec with VpcID := "vpc-user", SecurityGroupID := "sg-user" }

def sampleDefaults : Defaults :=
  { DefaultCIDR := "172.16.0.0/16", DefaultTagKey := "sealos", DefaultTagValue := "infra",
    DefaultRegion := "us-east-1" }

/-- A client on which every operation succeeds. -/
def okEC2 : EC2Helper :=
  { CreateVpc := fun _ _ _ => .ok "vpc-new",
    GetOrCreateSubnetIDByVpcID := fun _ =>
      .ok { SubnetId := "subnet-new", AvailabilityZoneId := "use1-az1" },
    BindEgressGatewayToVpc := fun _ => .ok "igw-new",
    DeleteVpc := fun _ => .ok (),
    CreateSecurityGroup := fun _ _ _ => .ok "sg-new",
    AuthorizeSecurityGroupIngress := fun _ _ => true,
    DeleteSecurityGroup := fun _ => .ok (),
    DescribeAvailabilityZones := fun _ => .ok [{ ZoneId := "use1-az1" }],
    GetInstanceInfos := fun _ =>
      .ok [{ StateCode := 0, InstanceId := "i-pending", PrivateIpAddress := "10.0.0.4" },
           { StateCode := 16, InstanceId := "i-master0", PrivateIpAddress := "10.0.0.5" }],
    AllocateAddress := .ok { PublicIp := "3.3.3.3", AllocationId := "eipalloc-1" },
    AssociateAddress := fun _ _ => .ok (),
    DisassociateAddress := fun _ => .ok (),
    ReleaseAddress := fun _ => .ok () }

/-- A client on which every operation fails. -/
def failEC2 : EC2Helper :=
  { CreateVpc := fun _ _ _ => .error (.cloud "CreateVpc"),
    GetOrCreateSubnetIDByVpcID := fun _ => .error (.cloud "Subnet"),
    BindEgressGatewayToVpc := fun _ => .error (.cloud "Gateway"),
    DeleteVpc := fun _ => .error (.cloud "DeleteVpc"),
    CreateSecurityGroup := fun _ _ _ => .error (.cloud "CreateSecurityGroup"),
    AuthorizeSecurityGroupIngress := fun _ _ => false,
    DeleteSecurityGroup := fun _ => .error (.cloud "DeleteSecurityGroup"),
    DescribeAvailabilityZones := fun _ => .error (.cloud "DescribeAvailabilityZones"),
    GetInstanceInfos := fun _ => .error (.cloud "DescribeInstances"),
    AllocateAddress := .error (.cloud "AllocateAddress"),
    AssociateAddress := fun _ _ => .error (.cloud "AssociateAddress"),
    DisassociateAddress := fun _ => .error (.cloud "DisassociateAddress"),
    ReleaseAddress := fun _ => .error (.cloud "ReleaseAddress") }

/-- A provider over the given spec and client whose random source always
answers `k`. -/
def mkProvider (spec : InfraSpec) (ec2 : EC2Helper) (k : Int) : AwsProvider :=
  { Name := "infra", Spec := spec, defaults := sampleDefaults, EC2 := ec2,
    Rand := fun _ => k, RandSecurityGroupName := "abcde" }

/-- A status that records the identifiers declared by `adoptSpec`. -/
def adoptedStatus : InfraStatus :=
  ResourceName.SecurityGroupID.SetValue
    (ResourceName.VpcID.SetValue emptyStatus "vpc-user") "sg-user"

/-- A status that records a VPC and a security group created by the provider. -/
def createdStatus : InfraStatus :=
  ResourceName.SecurityGroupID.SetValue
    (ResourceName.VpcID.SetValue emptyStatus "vpc-new") "sg-new"

/-- A spec whose zone list holds an empty entry. -/
def blankZoneSpec : InfraSpec :=
  { emptySpec with ZoneIDs := ["", "z1"] }

/-- A spec with the zone list `["z1", "z2"]`. -/
def twoZoneSpec : InfraSpec :=
  { emptySpec with ZoneIDs := ["z1", "z2"] }

/-- A client whose zone query answers one zone with an empty identifier. -/
def blankZoneEC2 : EC2Helper :=
  { okEC2 with DescribeAvailabilityZones := fun _ => .ok [{ ZoneId := "" }] }

/-- A status with three hosts: a ready node, a master that is not ready, and a
ready master. -/
def masterStatus : InfraStatus :=
  { emptyStatus with
    Hosts := [{ Ready := true, Roles := ["node"], Arch := AMD64 },
              { Ready := false, Roles := ["master"], Arch := AMD64 },
              { Ready := true, Roles := ["master", "etcd"], Arch := ARM64 }] }

/-- A status with two hosts, none of which is a ready master. -/
def noMasterStatus : InfraStatus :=
  { emptyStatus with
    Hosts := [{ Ready := true, Roles := ["node"], Arch := AMD64 },
              { Ready := false, Roles := ["master"], Arch := AMD64 }] }

/-- A client whose subnet step fails. -/
def subnetFailEC2 : EC2Helper :=
  { okEC2 with GetOrCreateSubnetIDByVpcID := fun _ => .error (.cloud "Subnet") }

/-- A client whose gateway step fails. -/
def gatewayFailEC2 : EC2Helper :=
  { okEC2 with BindEgressGatewayToVpc := fun _ => .error (.cloud "Gateway") }

/-- A client that refuses the ingress authorization. -/
def ingressFailEC2 : EC2Helper :=
  { okEC2 with AuthorizeSecurityGroupIngress := fun _ _ => false }

/-- A client whose release step fails. -/
def releaseFailEC2 : EC2Helper :=
  { okEC2 with ReleaseAddress := fun _ => .error (.cloud "ReleaseAddress") }

/-- A status that records an elastic IP, a VPC and a security group. -/
def boundStatus : InfraStatus :=
  ResourceName.EipID.SetValue createdStatus "eipalloc-1"

/-! ## Adoption of declared resources -/

/-- C1: when the spec declares a non-empty VpcID, `CreateVPC` returns success,
issues no cloud-client call, and the status VpcID afterwards is the declared
value, whatever the status held before; likewise for `CreateSecurityGroup` and
a declared SecurityGroupID. -/
theorem create_adopts_declared (a : AwsProvider) (status : InfraStatus) :
    (ResourceName.VpcID.ClusterValue a.Spec ≠ "" →
      (CreateVPC a status).result = Outcome.ok ∧ (CreateVPC a status).calls = [] ∧
      ResourceName.VpcID.Value (CreateVPC a status).status =
        ResourceName.VpcID.ClusterValue a.Spec) ∧
    (ResourceName.SecurityGroupID.ClusterValue a.Spec ≠ "" →
      (CreateSecurityGroup a status).result = Outcome.ok ∧
      (CreateSecurityGroup a status).calls = [] ∧
      ResourceName.SecurityGroupID.Value (CreateSecurityGroup a status).status =
        ResourceName.SecurityGroupID.ClusterValue a.Spec) := by
  constructor
  · intro h
    simp [CreateVPC, h, ResourceName.Value, ResourceName.SetValue]
  · intro h
    simp [CreateSecurityGroup, h, ResourceName.Value, ResourceName.SetValue]

/-- Witness of C1 on a spec declaring both identifiers, over a client that
would fail every call. -/
theorem create_adopts_declared_witness :
    ((CreateVPC (mkProvider adoptSpec failEC2 0) emptyStatus).result = Outcome.ok ∧
      (CreateVPC (mkProvider adoptSpec failEC2 0) emptyStatus).calls = [] ∧
      ResourceName.VpcID.Value (CreateVPC (mkProvider adoptSpec failEC2 0) emptyStatus).status =
        ResourceName.VpcID.ClusterValue (mkProvider adoptSpec failEC2 0).Spec) ∧
    ((CreateSecurityGroup (mkProvider adoptSpec failEC2 0) emptyStatus).result = Outcome.ok ∧
      (CreateSecurityGroup (mkProvider adoptSpec failEC2 0) emptyStatus).calls = [] ∧
      ResourceName.SecurityGroupID.Value
          (CreateSecurityGroup (mkProvider adoptSpec failEC2 0) emptyStatus).status =
        ResourceName.SecurityGroupID.ClusterValue (mkProvider adoptSpec failEC2 0).Spec) :=
  ⟨(create_adopts_declared (mkProvider adoptSpec failEC2 0) emptyStatus).1 (by decide),
   (create_adopts_declared (mkProvider adoptSpec failEC2 0) emptyStatus).2 (by decide)⟩

/-! ## Deletion and the skip rule -/

/-- Closed form of `DeleteVPC`. -/
theorem DeleteVPC_eq (a : AwsProvider) (status : InfraStatus) :
    DeleteVPC a status =
      if ResourceName.VpcID.ClusterValue a.Spec ≠ "" ∧ ResourceName.VpcID.Value status ≠ ""
      then { result := Outcome.ok, status := status, calls := [] }
      else { result := Outcome.ofExcept (a.EC2.DeleteVpc (ResourceName.VpcID.Value status)),
             status := status,
             calls := [Call.DeleteVpc (ResourceName.VpcID.Value status)] } := by
  unfold DeleteVPC
  split
  · rfl
  · dsimp only
    split <;> simp_all [Outcome.ofExcept]

/-- Closed form of `DeleteSecurityGroup`. -/
theorem DeleteSecurityGroup_eq (a : AwsProvider) (status : InfraStatus) :
    DeleteSecurityGroup a status =
      if ResourceName.SecurityGroupID.ClusterValue a.Spec ≠ "" ∧
          ResourceName.SecurityGroupID.Value status ≠ ""
      then { result := Outcome.ok, status := status, calls := [] }
      else { result := Outcome.ofExcept
               (a.EC2.DeleteSecurityGroup (ResourceName.SecurityGroupID.Value status)),
             status := status,
             calls := [Call.DeleteSecurityGroup
               (ResourceName.SecurityGroupID.Value status)] } := by
  unfold DeleteSecurityGroup
  split
  · rfl
  · dsimp only
    split <;> simp_all [Outcome.ofExcept]

/-- C2, as stated, fails: with a declared VpcID (resp. SecurityGroupID) and an
empty status value, `DeleteVPC` (resp. `DeleteSecurityGroup`) does issue a
delete call, with the empty identifier, and returns the error of that call. -/
theorem delete_declared_unrecorded_calls :
    ResourceName.VpcID.ClusterValue (mkProvider adoptSpec failEC2 0).Spec = "vpc-user" ∧
    ResourceName.VpcID.Value emptyStatus = "" ∧
    (DeleteVPC (mkProvider adoptSpec failEC2 0) emptyStatus).calls = [Call.DeleteVpc ""] ∧
    (DeleteVPC (mkProvider adoptSpec failEC2 0) emptyStatus).result =
      Outcome.err (Err.cloud "DeleteVpc") ∧
    ResourceName.SecurityGroupID.ClusterValue (mkProvider adoptSpec failEC2 0).Spec =
      "sg-user" ∧
    ResourceName.SecurityGroupID.Value emptyStatus = "" ∧
    (DeleteSecurityGroup (mkProvider adoptSpec failEC2 0) emptyStatus).calls =
      [Call.DeleteSecurityGroup ""] ∧
    (DeleteSecurityGroup (mkProvider adoptSpec failEC2 0) emptyStatus).result =
      Outcome.err (Err.cloud "DeleteSecurityGroup") := by
  decide

/-- C2, amended: when the declared value and the status value of VpcID (resp.
SecurityGroupID) are both non-empty, `DeleteVPC` (resp. `DeleteSecurityGroup`)
issues no call to the cloud client and returns success. -/
theorem delete_skips_adopted (a : AwsProvider) (status : InfraStatus) :
    (ResourceName.VpcID.ClusterValue a.Spec ≠ "" → ResourceName.VpcID.Value status ≠ "" →
      (DeleteVPC a status).calls = [] ∧ (DeleteVPC a status).result = Outcome.ok) ∧
    (ResourceName.SecurityGroupID.ClusterValue a.Spec ≠ "" →
      ResourceName.SecurityGroupID.Value status ≠ "" →
      (DeleteSecurityGroup a status).calls = [] ∧
      (DeleteSecurityGroup a status).result = Outcome.ok) := by
  constructor
  · intro h1 h2
    simp [DeleteVPC, h1, h2]
  · intro h1 h2
    simp [DeleteSecurityGroup, h1, h2]

/-- Witness of the amended C2 on a status that records the declared values. -/
theorem delete_skips_adopted_witness :
    ((DeleteVPC (mkProvider adoptSpec failEC2 0) adoptedStatus).calls = [] ∧
      (DeleteVPC (mkProvider adoptSpec failEC2 0) adoptedStatus).result = Outcome.ok) ∧
    ((DeleteSecurityGroup (mkProvider adoptSpec failEC2 0) adoptedStatus).calls = [] ∧
      (DeleteSecurityGroup (mkProvider adoptSpec failEC2 0) adoptedStatus).result =
        Outcome.ok) :=
  ⟨(delete_skips_adopted (mkProvider adoptSpec failEC2 0) adoptedStatus).1
      (by decide) (by decide),
   (delete_skips_adopted (mkProvider adoptSpec failEC2 0) adoptedStatus).2
      (by decide) (by decide)⟩

/-- C3: `DeleteVPC` skips (success, no cloud-client call) exactly when the
declared value and the status value of VpcID are both non-empty; in every
other state it issues exactly one `DeleteVpc` call whose identifier is the
status value, and returns the error of that call if it fails and success
otherwise; the status is never modified.  The same holds for
`DeleteSecurityGroup` and SecurityGroupID. -/
theorem delete_skip_iff_both_present (a : AwsProvider) (status : InfraStatus) :
    (((DeleteVPC a status).result = Outcome.ok ∧ (DeleteVPC a status).calls = []) ↔
      (ResourceName.VpcID.ClusterValue a.Spec ≠ "" ∧ ResourceName.VpcID.Value status ≠ "")) ∧
    (¬ (ResourceName.VpcID.ClusterValue a.Spec ≠ "" ∧ ResourceName.VpcID.Value status ≠ "") →
      (DeleteVPC a status).calls = [Call.DeleteVpc (ResourceName.VpcID.Value status)] ∧
      (DeleteVPC a status).result =
        Outcome.ofExcept (a.EC2.DeleteVpc (ResourceName.VpcID.Value status))) ∧
    (DeleteVPC a status).status = status ∧
    (((DeleteSecurityGroup a status).result = Outcome.ok ∧
        (DeleteSecurityGroup a status).calls = []) ↔
      (ResourceName.SecurityGroupID.ClusterValue a.Spec ≠ "" ∧
        ResourceName.SecurityGroupID.Value status ≠ "")) ∧
    (¬ (ResourceName.SecurityGroupID.ClusterValue a.Spec ≠ "" ∧
        ResourceName.SecurityGroupID.Value status ≠ "") →
      (DeleteSecurityGroup a status).calls =
        [Call.DeleteSecurityGroup (ResourceName.SecurityGroupID.Value status)] ∧
      (DeleteSecurityGroup a status).result =
        Outcome.ofExcept
          (a.EC2.DeleteSecurityGroup (ResourceName.SecurityGroupID.Value status))) ∧
    (DeleteSecurityGroup a status).status = status := by
  have hv := DeleteVPC_eq a status
  have hs := DeleteSecurityGroup_eq a status
  refine ⟨?_, ?_, ?_, ?_, ?_, ?_⟩
  · by_cases h : ResourceName.VpcID.ClusterValue a.Spec ≠ "" ∧
        ResourceName.VpcID.Value status ≠ ""
    · rw [if_pos h] at hv
      simp [hv, h]
    · rw [if_neg h] at hv
      simp [hv, h]
  · intro h
    rw [if_neg h] at hv
    simp [hv]
  · split at hv <;> simp [hv]
  · by_cases h : ResourceName.SecurityGroupID.ClusterValue a.Spec ≠ "" ∧
        ResourceName.SecurityGroupID.Value status ≠ ""
    · rw [if_pos h] at hs
      simp [hs, h]
    · rw [if_neg h] at hs
      simp [hs, h]
  · intro h
    rw [if_neg h] at hs
    simp [hs]
  · split at hs <;> simp [hs]

/-- Witness of C3: nothing is declared, so the recorded identifiers are
deleted. -/
theorem delete_skip_iff_both_present_witness :
    ((DeleteVPC (mkProvider emptySpec okEC2 0) createdStatus).calls =
        [Call.DeleteVpc (ResourceName.VpcID.Value createdStatus)] ∧
      (DeleteVPC (mkProvider emptySpec okEC2 0) createdStatus).result =
        Outcome.ofExcept ((mkProvider emptySpec okEC2 0).EC2.DeleteVpc
          (ResourceName.VpcID.Value createdStatus))) ∧
    ((DeleteSecurityGroup (mkProvider emptySpec okEC2 0) createdStatus).calls =
        [Call.DeleteSecurityGroup (ResourceName.SecurityGroupID.Value createdStatus)] ∧
      (DeleteSecurityGroup (mkProvider emptySpec okEC2 0) createdStatus).result =
        Outcome.ofExcept ((mkProvider emptySpec okEC2 0).EC2.DeleteSecurityGroup
          (ResourceName.SecurityGroupID.Value createdStatus))) :=
  ⟨(delete_skip_iff_both_present (mkProvider emptySpec okEC2 0) createdStatus).2.1
      (by decide),
   (delete_skip_iff_both_present (mkProvider emptySpec okEC2 0) createdStatus).2.2.2.2.1
      (by decide)⟩

/-! ## Zone resolution -/

/-- An index within range selects an element of the slice. -/
theorem sliceIndex_inRange {α : Type} (xs : List α) (i : Int) (h0 : 0 ≤ i)
    (h1 : i < xs.length) : ∃ x, sliceIndex xs i = some x ∧ x ∈ xs := by
  have hlt : i.toNat < xs.length := by omega
  refine ⟨xs[i.toNat], ?_, List.getElem_mem hlt⟩
  unfold sliceIndex
  rw [if_neg (by omega), List.get?_eq_getElem?, List.getElem?_eq_getElem hlt]

/-- With a zone recorded in the status, `GetAvailableZoneID` is a no-op. -/
theorem GetAvailableZoneID_recorded (a : AwsProvider) (status : InfraStatus)
    (h : status.Cluster.ZoneID ≠ "") :
    GetAvailableZoneID a status = { result := Outcome.ok, status := status, calls := [] } := by
  unfold GetAvailableZoneID
  rw [if_pos h]

/-- C4, as stated, fails.  First input: the spec zone list is `["", "z1"]`,
the random source answers 0 on the first call and 1 on the second; the first
call succeeds and records the empty zone, the second records "z1".  Second
input: the spec lists no zone and the provider answers one zone with an empty
identifier; the first call succeeds, and the second call, with the same
provider and random source, queries the provider again. -/
theorem zone_second_call_differs :
    (GetAvailableZoneID (mkProvider blankZoneSpec okEC2 0) emptyStatus).result = Outcome.ok ∧
    (GetAvailableZoneID (mkProvider blankZoneSpec okEC2 0) emptyStatus).status.Cluster.ZoneID
      = "" ∧
    (GetAvailableZoneID (mkProvider blankZoneSpec okEC2 1)
      (GetAvailableZoneID (mkProvider blankZoneSpec okEC2 0) emptyStatus).status
      ).status.Cluster.ZoneID = "z1" ∧
    (GetAvailableZoneID (mkProvider emptySpec blankZoneEC2 0) emptyStatus).result =
      Outcome.ok ∧
    (GetAvailableZoneID (mkProvider emptySpec blankZoneEC2 0)
      (GetAvailableZoneID (mkProvider emptySpec blankZoneEC2 0) emptyStatus).status).calls =
      [Call.DescribeAvailabilityZones "us-east-1"] := by
  decide

/-- C4, amended: if a first call of `GetAvailableZoneID` succeeds and the zone
it leaves in the status is non-empty, then a second call (whatever the spec
zone list, the provider responses and the random source are then) succeeds,
leaves the status, hence its zone, as the first call left it, and issues no
call to the cloud client. -/
theorem zone_idempotent_when_recorded (a1 a2 : AwsProvider) (status : InfraStatus)
    (_h1 : (GetAvailableZoneID a1 status).result = Outcome.ok)
    (h2 : (GetAvailableZoneID a1 status).status.Cluster.ZoneID ≠ "") :
    (GetAvailableZoneID a2 (GetAvailableZoneID a1 status).status).result = Outcome.ok ∧
    (GetAvailableZoneID a2 (GetAvailableZoneID a1 status).status).status.Cluster.ZoneID =
      (GetAvailableZoneID a1 status).status.Cluster.ZoneID ∧
    (GetAvailableZoneID a2 (GetAvailableZoneID a1 status).status).status =
      (GetAvailableZoneID a1 status).status ∧
    (GetAvailableZoneID a2 (GetAvailableZoneID a1 status).status).calls = [] := by
  rw [GetAvailableZoneID_recorded a2 _ h2]
  exact ⟨rfl, rfl, rfl, rfl⟩

/-- Witness of the amended C4: the first call queries the provider and records
"use1-az1"; the second call runs over a client that fails every call. -/
theorem zone_idempotent_when_recorded_witness :
    (GetAvailableZoneID (mkProvider emptySpec failEC2 0)
      (GetAvailableZoneID (mkProvider emptySpec okEC2 0) emptyStatus).status).result =
      Outcome.ok ∧
    (GetAvailableZoneID (mkProvider emptySpec failEC2 0)
      (GetAvailableZoneID (mkProvider emptySpec okEC2 0) emptyStatus).status
      ).status.Cluster.ZoneID =
      (GetAvailableZoneID (mkProvider emptySpec okEC2 0) emptyStatus).status.Cluster.ZoneID ∧
    (GetAvailableZoneID (mkProvider emptySpec failEC2 0)
      (GetAvailableZoneID (mkProvider emptySpec okEC2 0) emptyStatus).status).status =
      (GetAvailableZoneID (mkProvider emptySpec okEC2 0) emptyStatus).status ∧
    (GetAvailableZoneID (mkProvider emptySpec failEC2 0)
      (GetAvailableZoneID (mkProvider emptySpec okEC2 0) emptyStatus).status).calls = [] :=
  zone_idempotent_when_recorded (mkProvider emptySpec okEC2 0) (mkProvider emptySpec failEC2 0)
    emptyStatus (by decide) (by decide)

/-- C5: with a non-empty spec zone list, an empty status zone, and a random
source that answers an index within the list, `GetAvailableZoneID` succeeds,
issues no call to the cloud client, and records an element of the list. -/
theorem zone_from_spec_list (a : AwsProvider) (status : InfraStatus)
    (hL : a.Spec.ZoneIDs ≠ []) (hz : status.Cluster.ZoneID = "")
    (hr0 : 0 ≤ a.Rand a.Spec.ZoneIDs.length)
    (hr1 : a.Rand a.Spec.ZoneIDs.length < a.Spec.ZoneIDs.length) :
    (GetAvailableZoneID a status).result = Outcome.ok ∧
    (GetAvailableZoneID a status).calls = [] ∧
    (GetAvailableZoneID a status).status.Cluster.ZoneID ∈ a.Spec.ZoneIDs := by
  obtain ⟨z, hz1, hz2⟩ := sliceIndex_inRange a.Spec.ZoneIDs _ hr0 hr1
  have hlen : a.Spec.ZoneIDs.length ≠ 0 := by
    intro h
    exact hL (List.length_eq_zero.mp h)
  unfold GetAvailableZoneID
  rw [if_neg (by simp [hz]), if_pos hlen, hz1]
  exact ⟨rfl, rfl, hz2⟩

/-- Witness of C5 on the zone list `["z1", "z2"]` with the random index 1: the
zone recorded is one of "z1", "z2". -/
theorem zone_from_spec_list_witness :
    (GetAvailableZoneID (mkProvider twoZoneSpec failEC2 1) emptyStatus).result = Outcome.ok ∧
    (GetAvailableZoneID (mkProvider twoZoneSpec failEC2 1) emptyStatus).calls = [] ∧
    (GetAvailableZoneID (mkProvider twoZoneSpec failEC2 1) emptyStatus).status.Cluster.ZoneID
      ∈ ["z1", "z2"] :=
  zone_from_spec_list (mkProvider twoZoneSpec failEC2 1) emptyStatus (by decide) (by decide)
    (by decide) (by decide)

/-! ## Elastic IP binding -/

/-- The function `In` is slice membership. -/
theorem In_iff_mem (key : String) (slice : List String) : In key slice = true ↔ key ∈ slice := by
  simp [In, List.any_eq_true]

/-- The value of `List.find?` on a list split at the first element that satisfies `p`. -/
theorem find?_first_split {α : Type} (p : α → Bool) (pre post : List α) (x : α)
    (hpre : ∀ y ∈ pre, p y = false) (hx : p x = true) :
    (pre ++ x :: post).find? p = some x := by
  induction pre with
  | nil => simp [List.find?_cons, hx]
  | cons y ys ih =>
    have hy : p y = false := hpre y (List.mem_cons_self y ys)
    have hys : ∀ z ∈ ys, p z = false := fun z hz => hpre z (List.mem_cons_of_mem y hz)
    simp [List.find?_cons, hy, ih hys]

/-- Every list with an element that satisfies `p` splits at the first such
element. -/
theorem exists_first_split {α : Type} (p : α → Bool) (xs : List α)
    (h : ∃ x ∈ xs, p x = true) :
    ∃ pre x post, xs = pre ++ x :: post ∧ (∀ y ∈ pre, p y = false) ∧ p x = true := by
  induction xs with
  | nil => simp at h
  | cons y ys ih =>
    by_cases hy : p y = true
    · exact ⟨[], y, ys, rfl, by simp, hy⟩
    · have hys : ∃ x ∈ ys, p x = true := by
        obtain ⟨x, hx, hpx⟩ := h
        rcases List.mem_cons.mp hx with rfl | hx
        · exact absurd hpx hy
        · exact ⟨x, hx, hpx⟩
      obtain ⟨pre, x, post, hsplit, hpre, hx⟩ := ih hys
      refine ⟨y :: pre, x, post, by simp [hsplit], ?_, hx⟩
      intro z hz
      rcases List.mem_cons.mp hz with rfl | hz
      · simpa using hy
      · exact hpre z hz

/-- C6: when no host of the status both has the role "master" and is ready
(the empty host list included), `BindEipForMaster0` returns an error, issues no
call to the cloud client (hence no AllocateAddress and no AssociateAddress),
and leaves the status unchanged. -/
theorem bind_eip_without_ready_master (a : AwsProvider) (status : InfraStatus)
    (h : ∀ host ∈ status.Hosts, ¬ ("master" ∈ host.Roles ∧ host.Ready = true)) :
    (∃ e, (BindEipForMaster0 a status).result = Outcome.err e) ∧
    (BindEipForMaster0 a status).calls = [] ∧
    (BindEipForMaster0 a status).status = status := by
  have hfind : findReadyMaster status.Hosts = none := by
    unfold findReadyMaster
    have hnone : List.find? (fun h => In Master h.Roles && h.Ready) status.Hosts = none := by
      rw [List.find?_eq_none]
      intro x hx hp
      apply h x hx
      simp only [Bool.and_eq_true, In_iff_mem] at hp
      exact hp
    rw [hnone]
    rfl
  unfold BindEipForMaster0
  rw [hfind]
  exact ⟨⟨_, rfl⟩, rfl, rfl⟩

/-- Witness of C6 on a status whose hosts are a ready node and a master that
is not ready, over a client on which every call would succeed. -/
theorem bind_eip_without_ready_master_witness :
    (∃ e, (BindEipForMaster0 (mkProvider emptySpec okEC2 0) noMasterStatus).result =
      Outcome.err e) ∧
    (BindEipForMaster0 (mkProvider emptySpec okEC2 0) noMasterStatus).calls = [] ∧
    (BindEipForMaster0 (mkProvider emptySpec okEC2 0) noMasterStatus).status =
      noMasterStatus :=
  bind_eip_without_ready_master (mkProvider emptySpec okEC2 0) noMasterStatus (by decide)

/-- C7: let `h` be the first host of the status that has the role "master" and
is ready (every status with a ready master host has one, `exists_first_split`).
If the instance query built from `h` succeeds with a list whose first instance
of state code 16 is `m`, and AllocateAddress answers `resp`, and
AssociateAddress of `m` with the allocation succeeds, then `BindEipForMaster0`
succeeds; its calls are the instance query, one AllocateAddress, and one
AssociateAddress with the instance ID of `m` and the allocation ID of `resp`;
the status ends with EIP the public IP of `resp`, EipID its allocation ID,
Master0ID the instance ID of `m` and Master0InternalIP its private IP. -/
theorem bind_eip_for_running_master (a : AwsProvider) (status : InfraStatus)
    (pre post : List HostStatus) (h : HostStatus)
    (ipre ipost : List Instance) (m : Instance) (resp : AllocateAddressOutput)
    (hHosts : status.Hosts = pre ++ h :: post)
    (hpre : ∀ x ∈ pre, ¬ ("master" ∈ x.Roles ∧ x.Ready = true))
    (hh : "master" ∈ h.Roles ∧ h.Ready = true)
    (hquery : a.EC2.GetInstanceInfos
        { Product := a.Name, Role := stringsJoin h.Roles ",", Arch := h.Arch } =
      Except.ok (ipre ++ m :: ipost))
    (hipre : ∀ i ∈ ipre, i.StateCode ≠ 16)
    (hm : m.StateCode = 16)
    (halloc : a.EC2.AllocateAddress = Except.ok resp)
    (hassoc : a.EC2.AssociateAddress m.InstanceId resp.AllocationId = Except.ok ()) :
    (BindEipForMaster0 a status).result = Outcome.ok ∧
    (BindEipForMaster0 a status).calls =
      [Call.GetInstanceInfos
          { Product := a.Name, Role := stringsJoin h.Roles ",", Arch := h.Arch },
        Call.AllocateAddress,
        Call.AssociateAddress m.InstanceId resp.AllocationId] ∧
    (BindEipForMaster0 a status).calls.count Call.AllocateAddress = 1 ∧
    (BindEipForMaster0 a status).calls.count
      (Call.AssociateAddress m.InstanceId resp.AllocationId) = 1 ∧
    (BindEipForMaster0 a status).status.Cluster.EIP = resp.PublicIp ∧
    ResourceName.EipID.Value (BindEipForMaster0 a status).status = resp.AllocationId ∧
    (BindEipForMaster0 a status).status.Cluster.Master0ID = m.InstanceId ∧
    (BindEipForMaster0 a status).status.Cluster.Master0InternalIP = m.PrivateIpAddress := by
  have hfind : findReadyMaster status.Hosts = some h.ToHost := by
    unfold findReadyMaster
    rw [hHosts, find?_first_split _ pre post h]
    · rfl
    · intro y hy
      have hy2 := hpre y hy
      rw [← In_iff_mem] at hy2
      cases hin : In Master y.Roles <;> cases hr : y.Ready <;> simp_all [Master]
    · simp [In_iff_mem, Master, hh.1, hh.2]
  have hrun : findRunning (ipre ++ m :: ipost) = some m := by
    unfold findRunning
    apply find?_first_split
    · intro i hi
      simpa using hipre i hi
    · simpa using hm
  have heq : BindEipForMaster0 a status =
      { result := Outcome.ok,
        status := recordMaster0 status resp.PublicIp resp.AllocationId m,
        calls := [Call.GetInstanceInfos
            { Product := a.Name, Role := stringsJoin h.Roles ",", Arch := h.Arch },
          Call.AllocateAddress,
          Call.AssociateAddress m.InstanceId resp.AllocationId] } := by
    unfold BindEipForMaster0
    simp only [hfind, HostStatus.ToHost, hquery, hrun, halloc, hassoc]
  rw [heq]
  refine ⟨rfl, rfl, ?_, ?_, rfl, rfl, rfl, rfl⟩
  · simp [List.count_cons]
  · simp [List.count_cons]

/-- Witness of C7: the third host is the first ready master; the client answers
a pending instance and then the running instance "i-master0". -/
theorem bind_eip_for_running_master_witness :
    (BindEipForMaster0 (mkProvider emptySpec okEC2 0) masterStatus).result = Outcome.ok ∧
    (BindEipForMaster0 (mkProvider emptySpec okEC2 0) masterStatus).calls =
      [Call.GetInstanceInfos { Product := "infra", Role := "master,etcd", Arch := "arm64" },
        Call.AllocateAddress,
        Call.AssociateAddress "i-master0" "eipalloc-1"] ∧
    (BindEipForMaster0 (mkProvider emptySpec okEC2 0) masterStatus).status.Cluster.EIP =
      "3.3.3.3" ∧
    ResourceName.EipID.Value (BindEipForMaster0 (mkProvider emptySpec okEC2 0) masterStatus).status
      = "eipalloc-1" ∧
    (BindEipForMaster0 (mkProvider emptySpec okEC2 0) masterStatus).status.Cluster.Master0ID =
      "i-master0" ∧
    (BindEipForMaster0 (mkProvider emptySpec okEC2 0) masterStatus).status.Cluster.Master0InternalIP
      = "10.0.0.5" := by
  have w := bind_eip_for_running_master (mkProvider emptySpec okEC2 0) masterStatus
    [{ Ready := true, Roles := ["node"], Arch := AMD64 },
     { Ready := false, Roles := ["master"], Arch := AMD64 }]
    []
    { Ready := true, Roles := ["master", "etcd"], Arch := ARM64 }
    [{ StateCode := 0, InstanceId := "i-pending", PrivateIpAddress := "10.0.0.4" }]
    []
    { StateCode := 16, InstanceId := "i-master0", PrivateIpAddress := "10.0.0.5" }
    { PublicIp := "3.3.3.3", AllocationId := "eipalloc-1" }
    (by decide) (by decide) (by decide) (by rfl) (by decide) (by decide) (by rfl) (by rfl)
  exact ⟨w.1, w.2.1, w.2.2.2.2.1, w.2.2.2.2.2.1, w.2.2.2.2.2.2.1, w.2.2.2.2.2.2.2⟩

/-- C8: `ReleaseEipAddress` first calls DisassociateAddress with the status
EipID; if that call fails, its error is returned and nothing else is called;
if it succeeds, exactly one ReleaseAddress call follows, with the status EipID
as allocation ID, and its outcome is returned.  The status is unchanged in
every case. -/
theorem release_eip_sequence (a : AwsProvider) (status : InfraStatus) :
    (ReleaseEipAddress a status).calls.head? =
      some (Call.DisassociateAddress (ResourceName.EipID.Value status)) ∧
    (∀ e, a.EC2.DisassociateAddress (ResourceName.EipID.Value status) = Except.error e →
      (ReleaseEipAddress a status).result = Outcome.err e ∧
      (ReleaseEipAddress a status).calls =
        [Call.DisassociateAddress (ResourceName.EipID.Value status)]) ∧
    (a.EC2.DisassociateAddress (ResourceName.EipID.Value status) = Except.ok () →
      (ReleaseEipAddress a status).calls =
        [Call.DisassociateAddress (ResourceName.EipID.Value status),
          Call.ReleaseAddress (ResourceName.EipID.Value status)] ∧
      (ReleaseEipAddress a status).result =
        Outcome.ofExcept (a.EC2.ReleaseAddress (ResourceName.EipID.Value status))) ∧
    (ReleaseEipAddress a status).status = status := by
  unfold ReleaseEipAddress
  cases hd : a.EC2.DisassociateAddress (ResourceName.EipID.Value status) with
  | error e => simp
  | ok u =>
    cases hr : a.EC2.ReleaseAddress (ResourceName.EipID.Value status) with
    | error e => simp [Outcome.ofExcept]
    | ok v => simp [Outcome.ofExcept]

/-- Witness of C8: over a failing client only the disassociation is called;
over a client whose release fails, both calls are issued in order. -/
theorem release_eip_sequence_witness :
    ((ReleaseEipAddress (mkProvider emptySpec failEC2 0) boundStatus).result =
        Outcome.err (Err.cloud "DisassociateAddress") ∧
      (ReleaseEipAddress (mkProvider emptySpec failEC2 0) boundStatus).calls =
        [Call.DisassociateAddress (ResourceName.EipID.Value boundStatus)]) ∧
    ((ReleaseEipAddress (mkProvider emptySpec releaseFailEC2 0) boundStatus).calls =
        [Call.DisassociateAddress (ResourceName.EipID.Value boundStatus),
          Call.ReleaseAddress (ResourceName.EipID.Value boundStatus)] ∧
      (ReleaseEipAddress (mkProvider emptySpec releaseFailEC2 0) boundStatus).result =
        Outcome.ofExcept ((mkProvider emptySpec releaseFailEC2 0).EC2.ReleaseAddress
          (ResourceName.EipID.Value boundStatus))) :=
  ⟨(release_eip_sequence (mkProvider emptySpec failEC2 0) boundStatus).2.1
      (Err.cloud "DisassociateAddress") (by rfl),
   (release_eip_sequence (mkProvider emptySpec releaseFailEC2 0) boundStatus).2.2.1 (by rfl)⟩

/-! ## Creation without rollback -/

/-- C9: with no VpcID declared, (i) if CreateVpc fails with `e`, `CreateVPC`
returns `e`, makes no further call and leaves the status unchanged; (ii) if
CreateVpc answers `v` and the subnet step fails with `e`, `CreateVPC` returns
`e`, the status VpcID is `v`, SubnetID, SubnetZoneID and EgressGatewayID are
unchanged, and the calls are CreateVpc and the subnet step only (no gateway
call, no delete call); (iii) if the subnet step answers `sn` and the gateway
step fails with `e`, `CreateVPC` returns `e`, VpcID, SubnetID and SubnetZoneID
are recorded, EgressGatewayID is unchanged, and no delete call is issued. -/
theorem create_vpc_fails_fast (a : AwsProvider) (status : InfraStatus)
    (hspec : ResourceName.VpcID.ClusterValue a.Spec = "") :
    (∀ e, a.EC2.CreateVpc a.defaults.DefaultCIDR a.defaults.DefaultTagKey
        a.defaults.DefaultTagValue = Except.error e →
      (CreateVPC a status).result = Outcome.err e ∧
      (CreateVPC a status).calls =
        [Call.CreateVpc a.defaults.DefaultCIDR a.defaults.DefaultTagKey
          a.defaults.DefaultTagValue] ∧
      (CreateVPC a status).status = status) ∧
    (∀ v e, a.EC2.CreateVpc a.defaults.DefaultCIDR a.defaults.DefaultTagKey
        a.defaults.DefaultTagValue = Except.ok v →
      a.EC2.GetOrCreateSubnetIDByVpcID v = Except.error e →
      (CreateVPC a status).result = Outcome.err e ∧
      ResourceName.VpcID.Value (CreateVPC a status).status = v ∧
      ResourceName.SubnetID.Value (CreateVPC a status).status =
        ResourceName.SubnetID.Value status ∧
      ResourceName.SubnetZoneID.Value (CreateVPC a status).status =
        ResourceName.SubnetZoneID.Value status ∧
      ResourceName.EgressGatewayID.Value (CreateVPC a status).status =
        ResourceName.EgressGatewayID.Value status ∧
      (CreateVPC a status).calls =
        [Call.CreateVpc a.defaults.DefaultCIDR a.defaults.DefaultTagKey
          a.defaults.DefaultTagValue,
         Call.GetOrCreateSubnetIDByVpcID v]) ∧
    (∀ v sn e, a.EC2.CreateVpc a.defaults.DefaultCIDR a.defaults.DefaultTagKey
        a.defaults.DefaultTagValue = Except.ok v →
      a.EC2.GetOrCreateSubnetIDByVpcID v = Except.ok sn →
      a.EC2.BindEgressGatewayToVpc v = Except.error e →
      (CreateVPC a status).result = Outcome.err e ∧
      ResourceName.VpcID.Value (CreateVPC a status).status = v ∧
      ResourceName.SubnetID.Value (CreateVPC a status).status = sn.SubnetId ∧
      ResourceName.SubnetZoneID.Value (CreateVPC a status).status = sn.AvailabilityZoneId ∧
      ResourceName.EgressGatewayID.Value (CreateVPC a status).status =
        ResourceName.EgressGatewayID.Value status ∧
      (CreateVPC a status).calls =
        [Call.CreateVpc a.defaults.DefaultCIDR a.defaults.DefaultTagKey
          a.defaults.DefaultTagValue,
         Call.GetOrCreateSubnetIDByVpcID v,
         Call.BindEgressGatewayToVpc v]) := by
  refine ⟨?_, ?_, ?_⟩
  · intro e h1
    simp [CreateVPC, hspec, h1]
  · intro v e h1 h2
    simp [CreateVPC, hspec, h1, h2, ResourceName.Value, ResourceName.SetValue]
  · intro v sn e h1 h2 h3
    simp [CreateVPC, hspec, h1, h2, h3, ResourceName.Value, ResourceName.SetValue]

/-- Witness of C9: the three failure points, each on its own client, from a
status that already records other identifiers. -/
theorem create_vpc_fails_fast_witness :
    ((CreateVPC (mkProvider emptySpec failEC2 0) boundStatus).result =
        Outcome.err (Err.cloud "CreateVpc") ∧
      (CreateVPC (mkProvider emptySpec failEC2 0) boundStatus).calls =
        [Call.CreateVpc "172.16.0.0/16" "sealos" "infra"] ∧
      (CreateVPC (mkProvider emptySpec failEC2 0) boundStatus).status = boundStatus) ∧
    ((CreateVPC (mkProvider emptySpec subnetFailEC2 0) emptyStatus).result =
        Outcome.err (Err.cloud "Subnet") ∧
      ResourceName.VpcID.Value (CreateVPC (mkProvider emptySpec subnetFailEC2 0) emptyStatus).status
        = "vpc-new" ∧
      (CreateVPC (mkProvider emptySpec subnetFailEC2 0) emptyStatus).calls =
        [Call.CreateVpc "172.16.0.0/16" "sealos" "infra",
         Call.GetOrCreateSubnetIDByVpcID "vpc-new"]) ∧
    ((CreateVPC (mkProvider emptySpec gatewayFailEC2 0) emptyStatus).result =
        Outcome.err (Err.cloud "Gateway") ∧
      ResourceName.SubnetID.Value
          (CreateVPC (mkProvider emptySpec gatewayFailEC2 0) emptyStatus).status =
        "subnet-new" ∧
      ResourceName.EgressGatewayID.Value
          (CreateVPC (mkProvider emptySpec gatewayFailEC2 0) emptyStatus).status = "") := by
  have w1 := (create_vpc_fails_fast (mkProvider emptySpec failEC2 0) boundStatus (by decide)).1
    (Err.cloud "CreateVpc") (by rfl)
  have w2 := (create_vpc_fails_fast (mkProvider emptySpec subnetFailEC2 0) emptyStatus
    (by decide)).2.1 "vpc-new" (Err.cloud "Subnet") (by rfl) (by rfl)
  have w3 := (create_vpc_fails_fast (mkProvider emptySpec gatewayFailEC2 0) emptyStatus
    (by decide)).2.2 "vpc-new" { SubnetId := "subnet-new", AvailabilityZoneId := "use1-az1" }
    (Err.cloud "Gateway") (by rfl) (by rfl) (by rfl)
  exact ⟨w1, ⟨w2.1, w2.2.1, w2.2.2.2.2.2⟩, ⟨w3.1, w3.2.2.1, w3.2.2.2.2.1⟩⟩

/-- Closed form of `CreateSecurityGroup` once the group `g` is created. -/
theorem CreateSecurityGroup_created (a : AwsProvider) (status : InfraStatus) (g : String)
    (hspec : ResourceName.SecurityGroupID.ClusterValue a.Spec = "")
    (hcreate : a.EC2.CreateSecurityGroup "sealos security group"
        (ResourceName.VpcID.Value status) ("sealos" ++ "-" ++ a.RandSecurityGroupName) =
      Except.ok g) :
    CreateSecurityGroup a status =
      { result :=
          if a.EC2.AuthorizeSecurityGroupIngress g a.Spec.ExportPorts = true then Outcome.ok
          else Outcome.err (Err.authorizeFailed a.Spec.ExportPorts),
        status :=
          if a.EC2.AuthorizeSecurityGroupIngress g a.Spec.ExportPorts = true then
            ResourceName.SecurityGroupID.SetValue status g
          else status,
        calls :=
          [Call.CreateSecurityGroup "sealos security group" (ResourceName.VpcID.Value status)
              ("sealos" ++ "-" ++ a.RandSecurityGroupName),
            Call.AuthorizeSecurityGroupIngress g a.Spec.ExportPorts] } := by
  unfold CreateSecurityGroup
  dsimp only
  rw [if_neg (by simp [hspec]), hcreate]
  dsimp only
  cases a.EC2.AuthorizeSecurityGroupIngress g a.Spec.ExportPorts <;> rfl

/-- C10: with no SecurityGroupID declared and a CreateSecurityGroup call that
answers the group `g`, `CreateSecurityGroup` returns success with `g` recorded
exactly when the ingress authorization for the export ports of the spec
answers true; when it answers false, an error is returned, the status is
unchanged (`g` is not recorded) and no delete call is issued.  In both cases
the calls are the create request, whose VPC is the status VpcID, followed by
the ingress authorization of `g`. -/
theorem create_security_group_ingress (a : AwsProvider) (status : InfraStatus) (g : String)
    (hspec : ResourceName.SecurityGroupID.ClusterValue a.Spec = "")
    (hcreate : a.EC2.CreateSecurityGroup "sealos security group"
        (ResourceName.VpcID.Value status) ("sealos" ++ "-" ++ a.RandSecurityGroupName) =
      Except.ok g) :
    (((CreateSecurityGroup a status).result = Outcome.ok ∧
        (CreateSecurityGroup a status).status =
          ResourceName.SecurityGroupID.SetValue status g) ↔
      a.EC2.AuthorizeSecurityGroupIngress g a.Spec.ExportPorts = true) ∧
    (a.EC2.AuthorizeSecurityGroupIngress g a.Spec.ExportPorts = true →
      ResourceName.SecurityGroupID.Value (CreateSecurityGroup a status).status = g) ∧
    (a.EC2.AuthorizeSecurityGroupIngress g a.Spec.ExportPorts = false →
      (∃ e, (CreateSecurityGroup a status).result = Outcome.err e) ∧
      (CreateSecurityGroup a status).status = status) ∧
    (CreateSecurityGroup a status).calls =
      [Call.CreateSecurityGroup "sealos security group" (ResourceName.VpcID.Value status)
          ("sealos" ++ "-" ++ a.RandSecurityGroupName),
        Call.AuthorizeSecurityGroupIngress g a.Spec.ExportPorts] := by
  have heq := CreateSecurityGroup_created a status g hspec hcreate
  cases hi : a.EC2.AuthorizeSecurityGroupIngress g a.Spec.ExportPorts
  · rw [hi] at heq
    simp [heq]
  · rw [hi] at heq
    simp [heq, ResourceName.Value, ResourceName.SetValue]

/-- Witness of C10 on a client that creates "sg-new" and refuses the ingress
authorization: an error, two calls, and the status as before. -/
theorem create_security_group_ingress_witness :
    ((∃ e, (CreateSecurityGroup (mkProvider emptySpec ingressFailEC2 0) createdStatus).result =
        Outcome.err e) ∧
      (CreateSecurityGroup (mkProvider emptySpec ingressFailEC2 0) createdStatus).status =
        createdStatus) ∧
    (CreateSecurityGroup (mkProvider emptySpec ingressFailEC2 0) createdStatus).calls =
      [Call.CreateSecurityGroup "sealos security group" "vpc-new" "sealos-abcde",
        Call.AuthorizeSecurityGroupIngress "sg-new" []] := by
  have w := create_security_group_ingress (mkProvider emptySpec ingressFailEC2 0) createdStatus
    "sg-new" (by decide) (by rfl)
  exact ⟨w.2.2.1 (by rfl), w.2.2.2⟩

end Sealos
